import Mathlib

/-
Verification development for the ObsPy federated-catalog routing client
(obspy/clients/fdsn/routers/fedcatalog_client.py).

The Python source is shallowly embedded: dictionaries become association
lists (List (String × String)), object identity (aliasing) is made explicit
through Nat references into a store where a property depends on it, and
Python exceptions become explicit error values.  Helper classes that live in
obspy.clients.fdsn.routers.fedcatalog_parser (FedcatResponseLine, the parse
states, FederatedRoute) are not part of the given sources; where needed they
are modelled from the specification and marked as such in their doc comments.
-/

set_option autoImplicit false

namespace Fedcatalog

/-- A Python dict with string keys and string values, embedded as an
association list kept in insertion order (Python 3 dict semantics). -/
abbrev Dict := List (String × String)

/-- Embedding of `del d[k]` for a dict: drop the binding for key `k`. -/
def delKey (d : Dict) (k : String) : Dict :=
  d.filter (fun kv => kv.1 != k)

/-- Embedding of `d[k] = v` for a dict: replace an existing binding in
place, otherwise append a new binding (insertion order preserved). -/
def setKey (d : Dict) (k v : String) : Dict :=
  if (d.lookup k).isSome then
    d.map (fun kv => if kv.1 == k then (k, v) else kv)
  else
    d ++ [(k, v)]

/-- Keywords stripped from the arguments bound for the fedcatalog service,
from `distribute_args` (fedcatalog_client.py line 86). -/
def fedcatalog_prohibited : List String :=
  ["filename", "attach_response", "user", "password", "base_url"]

/-- Keywords allowed through to the per-provider client service, from
`distribute_args` (fedcatalog_client.py line 88). -/
def service_allowed : List String :=
  ["user", "password", "attach_response", "filename"]

/-- Embedding of `distribute_args` (fedcatalog_client.py lines 65-101):
copy the argument dict, delete each prohibited key that is present from the
copy, and collect each allowed key present in the original into a fresh
service dict.  Returns (fed_argdict, service_args). -/
def distribute_args (argdict : Dict) : Dict × Dict :=
  let fed_argdict := fedcatalog_prohibited.foldl
    (fun acc key => if (acc.lookup key).isSome then delKey acc key else acc)
    argdict
  let service_args := service_allowed.foldl
    (fun acc key =>
      match argdict.lookup key with
      | some v => setKey acc key v
      | none => acc)
    []
  (fed_argdict, service_args)

/-- A store of dict objects: Python object identity is an index into the
store.  Used to express mutation (or its absence) on the caller side. -/
abbrev Store := List Dict

/-- Read the dict object a reference points at. -/
def storeGet (st : Store) (r : Nat) : Dict :=
  st.getD r []

/-- Overwrite the dict object a reference points at. -/
def storeSet (st : Store) (r : Nat) (d : Dict) : Store :=
  st.set r d

/-- Store-level embedding of `distribute_args` making the object mutations
explicit: `argdict.copy()` allocates a fresh dict object, the prohibited
keys are deleted from that fresh object only, and `service_args` is built
as a fresh value by reading the caller object.  Returns the final store, a
reference to fed_argdict, and the service_args dict. -/
def distribute_args_store (st : Store) (argRef : Nat) : Store × Nat × Dict :=
  let argdict := storeGet st argRef
  let fedRef := st.length
  let st1 := st ++ [argdict]
  let st2 := storeSet st1 fedRef
    (fedcatalog_prohibited.foldl
      (fun acc key => if (acc.lookup key).isSome then delKey acc key else acc)
      (storeGet st1 fedRef))
  let service_args := service_allowed.foldl
    (fun acc key =>
      match (storeGet st2 argRef).lookup key with
      | some v => setKey acc key v
      | none => acc)
    []
  (st2, fedRef, service_args)

/-- The fixed provider-identifier alias table REMAPS (fedcatalog_client.py
lines 57-60), pairs of (iris_name, obspy_name). -/
def REMAPS : List (String × String) :=
  [("IRISDMC", "IRIS"),
   ("GEOFON", "GFZ"),
   ("SED", "ETH"),
   ("USPC", "USP")]

/-- The separate alias dict built inside
FederatedRoutingManager.parse_routing (fedcatalog_client.py lines
1016-1021). -/
def parse_routing_remap : List (String × String) :=
  [("IRISDMC", "IRIS"),
   ("GEOFON", "GFZ"),
   ("SED", "ETH"),
   ("USPSC", "USP")]

/-- Duck-typed view of the `bulk` argument of `get_bulk_string`: the
predicates the Python code tests (isinstance of a string type, iterability,
presence of a read method) together with the data each branch would
consume (the string value, what read() returns). -/
structure BulkObj where
  isString : Bool
  isIterable : Bool
  hasRead : Bool
  strVal : String
  readVal : String
deriving DecidableEq

/-- A Python str value as a `bulk` argument: strings are iterable and have
no read method. -/
def BulkObj.ofString (s : String) : BulkObj :=
  { isString := true, isIterable := true, hasRead := false,
    strVal := s, readVal := "" }

/-- A non-string iterable without a read method (a list or tuple of
strings), carrying no usable payload for get_bulk_string. -/
def BulkObj.vector : BulkObj :=
  { isString := false, isIterable := true, hasRead := false,
    strVal := "", readVal := "" }

/-- A readable stream object: read() yields `contents`. -/
def BulkObj.stream (contents : String) : BulkObj :=
  { isString := false, isIterable := false, hasRead := true,
    strVal := "", readVal := contents }

/-- The local file system as get_bulk_string sees it: os.path.isfile and
the contents open/read would yield for a path. -/
structure FileSys where
  isfile : String → Bool
  contents : String → String

/-- The two NotImplementedError exits of get_bulk_string. -/
inductive BulkError where
  /-- raised for a non-string iterable without a read method
  (fedcatalog_client.py lines 130-132). -/
  | cannotHandleVectors
  /-- raised for an argument that is no string, no iterable and has no
  read method (fedcatalog_client.py lines 145-148). -/
  | unrecognizedInput
deriving DecidableEq

/-- Modelled from the spec: `convert_to_string` is imported from
obspy.clients.fdsn.client and is not part of the given sources; for the
string-valued options the claims exercise it renders the value verbatim. -/
def convert_to_string (v : String) : String := v

/-- Embedding of `get_bulk_string` (fedcatalog_client.py lines 104-155).
Option values use `Option String` so that a Python None value can be
skipped exactly as `if value is not None` does; `arguments` itself is
optional, mirroring `if arguments is not None`.  The branch structure of
the source, including the unreachable local-file branch inside the final
else arm, is kept as written. -/
def get_bulk_string (fs : FileSys) (bulk : BulkObj)
    (arguments : Option (List (String × Option String))) :
    Except BulkError String :=
  let args : Option (List String) :=
    match arguments with
    | some argl =>
        some (argl.filterMap (fun kv =>
          match kv.2 with
          | some v => some (kv.1 ++ "=" ++ convert_to_string v)
          | none => none))
    | none => none
  let finish : String → Except BulkError String := fun tmp =>
    match args with
    | some l => if l.isEmpty then .ok tmp
                else .ok (String.intercalate "\n" l ++ "\n" ++ tmp)
    | none => .ok tmp
  if bulk.isString then
    finish bulk.strVal
  else if bulk.isIterable && !bulk.hasRead then
    .error .cannotHandleVectors
  else
    if bulk.hasRead then
      finish bulk.readVal
    else if bulk.isString then
      if !(bulk.strVal.contains '\n') && fs.isfile bulk.strVal then
        finish (fs.contents bulk.strVal)
      else
        finish bulk.strVal
    else
      .error .unrecognizedInput

/-- A provider record as served by the fedcatalog datacenters endpoint.
Only the name key is inspected by the code under study; the remaining
fields are abstracted into one payload string. -/
structure ProviderRecord where
  name : String
  payload : String
deriving DecidableEq

/-- Dict from provider name to record, insertion ordered. -/
abbrev ProvDict := List (String × ProviderRecord)

/-- `d[k] = v` on a provider dict. -/
def setProv (d : ProvDict) (k : String) (v : ProviderRecord) : ProvDict :=
  if (d.lookup k).isSome then
    d.map (fun kv => if kv.1 == k then (k, v) else kv)
  else
    d ++ [(k, v)]

/-- The REMAPS loop of FedcatalogProviders.refresh (fedcatalog_client.py
lines 280-282): for each (iris_name, obspy_name) pair, if iris_name is a
key, bind obspy_name to the same record. -/
def applyRemaps (d : ProvDict) : ProvDict :=
  REMAPS.foldl
    (fun acc p =>
      match acc.lookup p.1 with
      | some r => setProv acc p.2 r
      | none => acc)
    d

/-- The dict comprehension building `self._providers` from the decoded
directory response (fedcatalog_client.py line 272). -/
def buildProviders (records : List ProviderRecord) : ProvDict :=
  records.foldl (fun acc v => setProv acc v.name v) []

/-- The mutable state of a FedcatalogProviders object: the provider dict
and the consecutive-failure counter. -/
structure ProvidersState where
  providers : ProvDict
  failed_refreshes : Nat
deriving DecidableEq

/-- Outcome of the directory request: a decoded record list, or any
failure of the transport or of JSON decoding. -/
abbrev DirectoryResponse := Except Unit (List ProviderRecord)

/-- Embedding of the body of FedcatalogProviders.refresh past its
early-return guards (fedcatalog_client.py lines 269-282): the try block
assigns the freshly built provider dict and zeroes the failure counter,
then the REMAPS loop adds alias keys; the except block leaves the
providers untouched, increments the counter and returns without
re-raising (the embedding is a total function into the new state, so no
failure escapes to the caller). -/
def refresh_attempt (s : ProvidersState) (resp : DirectoryResponse) :
    ProvidersState :=
  match resp with
  | .ok records =>
      let s1 : ProvidersState :=
        { providers := buildProviders records, failed_refreshes := 0 }
      { s1 with providers := applyRemaps s1.providers }
  | .error _ =>
      { s with failed_refreshes := s.failed_refreshes + 1 }

/-- Embedding of the early-return guard of FedcatalogProviders.refresh
(fedcatalog_client.py lines 259-260): a populated registry without force
is a no-op.  The lock-based guard at lines 261-262 concerns concurrent
callers and is outside this sequential embedding. -/
def refresh (s : ProvidersState) (force : Bool) (resp : DirectoryResponse) :
    ProvidersState :=
  if !s.providers.isEmpty && !force then s else refresh_attempt s resp

/-- Outcome of a provider bulk-fetch call (`get_waveforms_bulk` or
`get_stations_bulk`) as FederatedClient._request observes it:
a dataset, an FDSNNoDataException, or any other FDSNException.
FDSNNoDataException is a subclass of FDSNException and its handler comes
first in the source, so the three cases are disjoint here. -/
inductive FetchOutcome (α : Type) where
  | ok (data : α)
  | noData
  | serviceError

/-- The three collectors FederatedClient._request pushes into: the
merged-output queue, the succeeded-request queue and the failed-request
queue.  α is the dataset type, β the bookkeeping type returned by
data_to_request. -/
structure Collectors (α β : Type) where
  output : List α
  passed : List β
  failed : List (List String)
deriving DecidableEq

/-- Embedding of the in-memory branch of FederatedClient._request
(fedcatalog_client.py lines 549-566): on success the dataset goes into
the output queue and its data_to_request rendering into the passed queue;
on FDSNNoDataException the route request items go into the failed queue
and the call returns normally; on any other FDSNException the route
request items go into the failed queue and the exception is re-raised
(second component true means the exception propagates to the caller,
aborting the remaining routes of a serial dispatch). -/
def request_in_memory {α β : Type} (data_to_request : α → β)
    (route_items : List String) (res : FetchOutcome α)
    (c : Collectors α β) : Collectors α β × Bool :=
  match res with
  | .ok d =>
      ({ c with output := c.output ++ [d],
                passed := c.passed ++ [data_to_request d] }, false)
  | .noData =>
      ({ c with failed := c.failed ++ [route_items] }, false)
  | .serviceError =>
      ({ c with failed := c.failed ++ [route_items] }, true)

/-- Classification of one line of a fedcatalog response. -/
inductive FLine where
  /-- blank separator line -/
  | blank
  /-- a DATACENTER=id,url line -/
  | datacenter (id url : String)
  /-- a SERVICEKIND=url announcement inside a provider block -/
  | service (kind url : String)
  /-- any other key=value line (a query parameter) -/
  | param (key value : String)
  /-- a whitespace-delimited selector (request) line -/
  | request (text : String)
deriving DecidableEq

/-- Whitespace for line trimming. -/
def isSpaceChar (c : Char) : Bool :=
  c == ' ' || c == '\t' || c == '\n' || c == '\r'

/-- Strip leading and trailing whitespace from a character list. -/
def trimChars (l : List Char) : List Char :=
  ((l.dropWhile isSpaceChar).reverse.dropWhile isSpaceChar).reverse

/-- Split a character list on a separator character; always returns at
least one (possibly empty) piece. -/
def splitChar (sep : Char) : List Char → List (List Char)
  | [] => [[]]
  | c :: rest =>
      let r := splitChar sep rest
      if c == sep then [] :: r
      else
        match r with
        | [] => [[c]]
        | h :: t => (c :: h) :: t

/-- Modelled from the spec: the line classification performed by
FedcatResponseLine together with the state transition of the parse states
(both defined in obspy.clients.fdsn.routers.fedcatalog_parser, which is
not among the given sources).  Per the spec grammar: a blank line is a
separator; a DATACENTER=id,url line opens a provider block; a key=value
line whose key names a service kind registers a service URL; any other
key=value line is a query parameter; anything else is a selector line.
Lines are trimmed, as the source comment (a smarter, trimmed line)
records. -/
def classifyLine (raw : String) : FLine :=
  let line := trimChars raw.data
  if line.isEmpty then
    .blank
  else if "DATACENTER=".data.isPrefixOf line then
    let rest := line.drop 11
    match splitChar ',' rest with
    | [] => .datacenter (String.mk rest) ""
    | idPart :: urlParts =>
        .datacenter (String.mk idPart)
          (String.mk (List.intercalate [','] urlParts))
  else if line.contains '=' then
    match splitChar '=' line with
    | [] => .request (String.mk line)
    | key :: valParts =>
        let value := String.mk (List.intercalate ['='] valParts)
        if "SERVICE".data.reverse.isPrefixOf key.reverse then
          .service (String.mk key) value
        else
          .param (String.mk key) value
  else
    .request (String.mk line)

/-- A FederatedRoute as parse_routing builds it.  Modelled from the spec
(the class itself lives outside the given sources): provider identifier,
the URL announced on the DATACENTER line, the service map, the shared
parameters dict (held by reference into a parameter store, because the
source shares one dict object across routes), and the ordered request
lines. -/
structure RouteM where
  provider_id : String
  url : String
  services : List (String × String)
  paramRef : Nat
  request_items : List String
deriving DecidableEq

/-- The provider id of the placeholder route parse_routing starts from
(fedcatalog_client.py line 998). -/
def placeholderId : String := "EMPTY_EMPTY_EMPTY"

/-- State of the parse_routing loop.  fed_resp of the source is
closed ++ [cur] when curInPlan is set (the source appends the current
route object on creation and keeps mutating it; here the current route is
held out and flushed on the next DATACENTER line or at the end, which is
the same list because only the last appended object is ever mutated).
paramHeap is the store of parameter dict objects; captured is the
`parameters` variable of the source (a reference, None at first). -/
structure ParseSt where
  paramHeap : List Dict
  closed : List RouteM
  cur : RouteM
  curInPlan : Bool
  captured : Option Nat
deriving DecidableEq

/-- Initial loop state: an EMPTY_EMPTY_EMPTY placeholder route owning a
fresh empty parameters dict (ref 0), nothing appended, parameters None
(fedcatalog_client.py lines 997-1000). -/
def initSt : ParseSt :=
  { paramHeap := [[]],
    closed := [],
    cur := { provider_id := placeholderId, url := "", services := [],
             paramRef := 0, request_items := [] },
    curInPlan := false,
    captured := none }

/-- One iteration of the parse_routing loop (fedcatalog_client.py lines
1002-1012).  On a DATACENTER line: if the current route is still the
placeholder, capture its parameters reference (line 1007); create a new
FederatedRoute with a fresh parameters dict, immediately overwritten by
the captured shared reference (lines 1008-1009); append it (line 1010).
Other lines are handled by the parse of the current state, which mutates
the current route: a service line extends its service map, a parameter
line extends the dict its parameters reference points at, a selector line
extends its request items, a blank line does nothing. -/
def parseStep (st : ParseSt) (raw : String) : ParseSt :=
  match classifyLine raw with
  | .blank => st
  | .datacenter id url =>
      let captured :=
        if st.cur.provider_id == placeholderId then some st.cur.paramRef
        else st.captured
      let freshRef := st.paramHeap.length
      let pRef := captured.getD freshRef
      let newRoute : RouteM :=
        { provider_id := id, url := url, services := [],
          paramRef := pRef, request_items := [] }
      { paramHeap := st.paramHeap ++ [[]],
        closed := if st.curInPlan then st.closed ++ [st.cur] else st.closed,
        cur := newRoute,
        curInPlan := true,
        captured := captured }
  | .service kind url =>
      { st with cur := { st.cur with services := st.cur.services ++ [(kind, url)] } }
  | .param k v =>
      { st with paramHeap :=
          (st.paramHeap.set st.cur.paramRef
            ((st.paramHeap.getD st.cur.paramRef []) ++ [(k, v)])) }
  | .request text =>
      { st with cur := { st.cur with request_items := st.cur.request_items ++ [text] } }

/-- Run the parse_routing loop over the splitlines of the response text. -/
def parse_routing_loop (lines : List String) : ParseSt :=
  lines.foldl parseStep initSt

/-- The fed_resp list of the source at a given loop state. -/
def fed_resp (st : ParseSt) : List RouteM :=
  st.closed ++ (if st.curInPlan then [st.cur] else [])

/-- The remap loop of parse_routing (fedcatalog_client.py lines
1024-1026) applied to one route. -/
def remapRoute (r : RouteM) : RouteM :=
  match parse_routing_remap.lookup r.provider_id with
  | some newId => { r with provider_id := newId }
  | none => r

/-- The finalization of parse_routing (fedcatalog_client.py lines
1013-1026): drop the last route when it has no request items, then apply
the provider-id remap to every route. -/
def finalizeRoutes (routes : List RouteM) : List RouteM :=
  let pruned :=
    match routes.getLast? with
    | some lastR => if lastR.request_items.isEmpty then routes.dropLast else routes
    | none => routes
  pruned.map remapRoute

/-- Embedding of FederatedRoutingManager.parse_routing
(fedcatalog_client.py lines 941-1027), taking the response text already
split into lines (block_text.splitlines()). -/
def parse_routing (lines : List String) : List RouteM :=
  finalizeRoutes (fed_resp (parse_routing_loop lines))

/-- Example response text (already split into lines): two provider blocks
where the second block announces a service but carries zero selector
lines.  Taken from the doctest of parse_routing with the selector lines of
the second block removed. -/
def twoBlockEx : List String :=
  ["level=network", "",
   "DATACENTER=GEOFON,http://geofon.gfz-potsdam.de",
   "STATIONSERVICE=http://geofon.gfz-potsdam.de/fdsnws/station/1/",
   "CK ASHT -- HHZ 2015-01-01T00:00:00 2016-01-02T00:00:00",
   "",
   "DATACENTER=INGV,http://www.ingv.it",
   "STATIONSERVICE=http://webservices.rm.ingv.it/fdsnws/station/1/"]

/-- Example response text with two complete provider blocks (the doctest
of parse_routing, one selector line per block). -/
def overlapEx : List String :=
  twoBlockEx ++ ["HL ARG -- BHZ 2015-01-01T00:00:00 2016-01-02T00:00:00"]

/-- The route parse_routing produces for the first block of the examples
(GEOFON remapped to GFZ, sharing parameter dict 0). -/
def routeGFZ : RouteM :=
  { provider_id := "GFZ",
    url := "http://geofon.gfz-potsdam.de",
    services := [("STATIONSERVICE", "http://geofon.gfz-potsdam.de/fdsnws/station/1/")],
    paramRef := 0,
    request_items := ["CK ASHT -- HHZ 2015-01-01T00:00:00 2016-01-02T00:00:00"] }

/-- The route parse_routing produces for the second block of overlapEx
(INGV is not in the alias table, same shared parameter dict 0). -/
def routeINGV : RouteM :=
  { provider_id := "INGV",
    url := "http://www.ingv.it",
    services := [("STATIONSERVICE", "http://webservices.rm.ingv.it/fdsnws/station/1/")],
    paramRef := 0,
    request_items := ["HL ARG -- BHZ 2015-01-01T00:00:00 2016-01-02T00:00:00"] }

/-- A file system holding one file named request.txt whose contents are a
selector line; used to exercise the local-file detection path of
get_bulk_string. -/
def requestFileFS : FileSys :=
  { isfile := fun p => p == "request.txt",
    contents := fun p =>
      if p == "request.txt" then "IU ANMO -- BHZ 2010-02-27 2010-02-28" else "" }

/-- Loop invariant of parse_routing: before the first DATACENTER line the
parameters variable is None, nothing has been appended and the current
route is the placeholder; afterwards the captured reference never changes
and every appended route, the current one included, carries exactly that
reference as its parameters object. -/
def parseInv (st : ParseSt) : Prop :=
  match st.captured with
  | none => st.curInPlan = false ∧ st.closed = [] ∧ st.cur.provider_id = placeholderId
  | some c => st.curInPlan = true ∧ st.cur.paramRef = c ∧ ∀ r ∈ st.closed, r.paramRef = c

/-! Helper lemmas. -/

theorem filterBool_filterBool {α : Type} (p q : α → Bool) (l : List α) :
    (l.filter q).filter p = l.filter (fun a => q a && p a) := by
  induction l with
  | nil => rfl
  | cons a t ih =>
      by_cases hq : q a <;> by_cases hp : p a <;>
        simp [List.filter_cons, hq, hp, ih]

theorem beq_string_comm (a b : String) : (a == b) = (b == a) := by
  rcases eq_or_ne a b with h | h
  · subst h; rfl
  · simp [h, Ne.symm h]

theorem foldl_delKey_filter (keys : List String) (d : Dict) :
    keys.foldl (fun acc key => if (acc.lookup key).isSome then delKey acc key else acc) d
      = d.filter (fun kv => !(keys.contains kv.1)) := by
  induction keys generalizing d with
  | nil => simp
  | cons k ks ih =>
      simp only [List.foldl]
      by_cases h : (d.lookup k).isSome
      · rw [if_pos h, ih, delKey, filterBool_filterBool]
        apply List.filter_congr
        intro kv _
        simp only [List.contains_cons, Bool.not_or, bne, beq_string_comm kv.1 k]
      · rw [if_neg h, ih]
        apply List.filter_congr
        intro kv hm
        rw [Option.not_isSome_iff_eq_none, List.lookup_eq_none_iff] at h
        have hne := h kv hm
        simp only [bne] at hne
        simp only [List.contains_cons, Bool.not_or, beq_string_comm kv.1 k]
        rw [hne, Bool.true_and]

theorem service_args_eq (argdict : Dict) :
    service_allowed.foldl
      (fun acc key =>
        match argdict.lookup key with
        | some v => setKey acc key v
        | none => acc) []
    = service_allowed.filterMap
        (fun k => (argdict.lookup k).map (fun v => (k, v))) := by
  simp only [service_allowed, List.foldl, List.filterMap]
  cases h1 : argdict.lookup "user" <;>
    cases h2 : argdict.lookup "password" <;>
      cases h3 : argdict.lookup "attach_response" <;>
        cases h4 : argdict.lookup "filename" <;>
          simp [setKey, List.lookup, h1, h2, h3, h4]

theorem lookup_filter_not_contains (keys : List String) (d : Dict) (k : String)
    (hk : keys.contains k = true) :
    (d.filter (fun kv => !(keys.contains kv.1))).lookup k = none := by
  rw [List.lookup_eq_none_iff]
  intro p hp
  have h2 := (List.mem_filter.mp hp).2
  simp only [Bool.not_eq_true'] at h2
  simp only [bne, Bool.not_eq_eq_eq_not, Bool.not_true]
  rcases hbe : (k == p.1) with _ | _
  · rfl
  · exfalso
    have hkp : k = p.1 := by simpa using hbe
    rw [← hkp] at h2
    rw [hk] at h2
    exact absurd h2 (by simp)

theorem lookup_filterMap_not_mem (keys : List String) (d : Dict) (k : String)
    (hk : k ∉ keys) :
    (keys.filterMap (fun key => (d.lookup key).map (fun v => (key, v)))).lookup k
      = none := by
  rw [List.lookup_eq_none_iff]
  intro p hp
  rcases List.mem_filterMap.mp hp with ⟨key, hkey, hmap⟩
  rcases Option.map_eq_some'.mp hmap with ⟨v, _, hpv⟩
  have hp1 : p.1 = key := by rw [← hpv]
  simp only [bne, Bool.not_eq_eq_eq_not, Bool.not_true]
  rcases hbe : (k == p.1) with _ | _
  · rfl
  · exfalso
    have : k = p.1 := by simpa using hbe
    exact hk (this ▸ hp1 ▸ hkey)

theorem remapRoute_request_items (r : RouteM) :
    (remapRoute r).request_items = r.request_items := by
  unfold remapRoute
  cases parse_routing_remap.lookup r.provider_id <;> rfl

theorem remapRoute_paramRef (r : RouteM) :
    (remapRoute r).paramRef = r.paramRef := by
  unfold remapRoute
  cases parse_routing_remap.lookup r.provider_id <;> rfl

theorem parseInv_step (st : ParseSt) (raw : String) (h : parseInv st) :
    parseInv (parseStep st raw) := by
  unfold parseStep
  cases classifyLine raw with
  | blank => exact h
  | datacenter id url =>
      by_cases hid : (st.cur.provider_id == placeholderId) = true
      · cases hc : st.captured with
        | none =>
            rw [parseInv, hc] at h
            obtain ⟨hplan, hclosed, _⟩ := h
            simp only [hid, if_true, hplan, Bool.false_eq_true, if_false,
              Option.getD_some, parseInv]
            exact ⟨trivial, trivial, by rw [hclosed]; intro r hr; cases hr⟩
        | some c =>
            rw [parseInv, hc] at h
            obtain ⟨hplan, href, hclosed⟩ := h
            simp only [hid, if_true, hplan, Option.getD_some, parseInv]
            refine ⟨trivial, trivial, ?_⟩
            intro r hr
            rcases List.mem_append.mp hr with hr | hr
            · rw [hclosed r hr, href]
            · rw [List.mem_singleton.mp hr, href]
      · cases hc : st.captured with
        | none =>
            rw [parseInv, hc] at h
            obtain ⟨_, _, hidEq⟩ := h
            exact absurd (by rw [hidEq]; exact beq_self_eq_true placeholderId) hid
        | some c =>
            rw [parseInv, hc] at h
            obtain ⟨hplan, href, hclosed⟩ := h
            rw [Bool.not_eq_true] at hid
            simp only [hid, Bool.false_eq_true, if_false, hc, hplan, if_true,
              Option.getD_some, parseInv]
            refine ⟨trivial, trivial, ?_⟩
            intro r hr
            rcases List.mem_append.mp hr with hr | hr
            · exact hclosed r hr
            · rw [List.mem_singleton.mp hr]; exact href
  | service kind url =>
      rw [parseInv] at h ⊢
      cases hc : st.captured <;> rw [hc] at h <;> simpa using h
  | param k v =>
      rw [parseInv] at h ⊢
      cases hc : st.captured <;> rw [hc] at h <;> simpa using h
  | request text =>
      rw [parseInv] at h ⊢
      cases hc : st.captured <;> rw [hc] at h <;> simpa using h

theorem parseInv_loop (lines : List String) : parseInv (parse_routing_loop lines) := by
  unfold parse_routing_loop
  have hgen : ∀ (ls : List String) (st : ParseSt),
      parseInv st → parseInv (ls.foldl parseStep st) := by
    intro ls
    induction ls with
    | nil => intro st h; exact h
    | cons a t ih => intro st h; exact ih _ (parseInv_step st a h)
  have hinit : parseInv initSt := by simp [parseInv, initSt]
  exact hgen lines initSt hinit

theorem fed_resp_paramRef_eq (st : ParseSt) (h : parseInv st) :
    ∀ r1 ∈ fed_resp st, ∀ r2 ∈ fed_resp st, r1.paramRef = r2.paramRef := by
  cases hc : st.captured with
  | none =>
      rw [parseInv, hc] at h
      obtain ⟨hplan, hclosed, _⟩ := h
      unfold fed_resp
      rw [hplan, hclosed]
      simp
  | some c =>
      rw [parseInv, hc] at h
      obtain ⟨hplan, href, hclosed⟩ := h
      have key : ∀ r ∈ fed_resp st, r.paramRef = c := by
        intro r hr
        unfold fed_resp at hr
        rw [hplan] at hr
        simp at hr
        rcases hr with hr | hr
        · exact hclosed r hr
        · rw [hr]; exact href
      intro r1 h1 r2 h2
      rw [key r1 h1, key r2 h2]

theorem mem_finalizeRoutes (routes : List RouteM) (r : RouteM)
    (h : r ∈ finalizeRoutes routes) :
    ∃ r0 ∈ routes, r = remapRoute r0 := by
  unfold finalizeRoutes at h
  have hsub : ∀ r0 : RouteM,
      r0 ∈ (match routes.getLast? with
            | some lastR => if lastR.request_items.isEmpty then routes.dropLast else routes
            | none => routes) → r0 ∈ routes := by
    intro r0 hr0
    split at hr0
    · split at hr0
      · exact List.dropLast_subset routes hr0
      · exact hr0
    · exact hr0
  rcases List.mem_map.mp h with ⟨r0, hr0, hmap⟩
  exact ⟨r0, hsub r0 hr0, hmap.symm⟩

/-! Claim theorems. -/

/-- C1: in the in-memory mode of FederatedClient._request, when the bulk
fetch raises the no-data condition the route request lines are pushed into
the failed collector and the call returns normally (second component
false, so dispatch may continue with the next route); on any other
provider service failure the same push happens and the failure is
re-raised (second component true, aborting remaining routes).  In neither
failure case does the merged-output or the succeeded collector change. -/
theorem c1_request_failure_routing {α β : Type} (data_to_request : α → β)
    (route_items : List String) (c : Collectors α β) :
    request_in_memory data_to_request route_items .noData c
        = ({ output := c.output, passed := c.passed,
             failed := c.failed ++ [route_items] }, false)
    ∧ request_in_memory data_to_request route_items .serviceError c
        = ({ output := c.output, passed := c.passed,
             failed := c.failed ++ [route_items] }, true) :=
  ⟨rfl, rfl⟩

/-- C2: parse_routing removes at most one route from the parsed sequence,
and only when that route is the last one and its request-line sequence is
empty; every other route keeps its request-line sequence as parsed.  In
particular a response with two provider blocks where the second block has
zero selector lines yields a plan holding exactly the first route. -/
theorem c2_trailing_route_drop :
    (∀ lines : List String,
      (parse_routing lines).map RouteM.request_items
          = (fed_resp (parse_routing_loop lines)).map RouteM.request_items
      ∨ ∃ lastR,
          (fed_resp (parse_routing_loop lines)).getLast? = some lastR
          ∧ lastR.request_items = []
          ∧ (parse_routing lines).map RouteM.request_items
              = ((fed_resp (parse_routing_loop lines)).dropLast).map RouteM.request_items)
    ∧ parse_routing twoBlockEx = [routeGFZ] := by
  constructor
  · intro lines
    have hmap : ∀ l : List RouteM,
        (l.map remapRoute).map RouteM.request_items = l.map RouteM.request_items := by
      intro l
      rw [List.map_map]
      exact List.map_congr_left (fun r _ => remapRoute_request_items r)
    unfold parse_routing finalizeRoutes
    cases hgl : (fed_resp (parse_routing_loop lines)).getLast? with
    | none => left; simp [hgl, hmap]
    | some lastR =>
        by_cases he : lastR.request_items.isEmpty
        · right
          refine ⟨lastR, hgl ▸ rfl, by simpa [List.isEmpty_iff] using he, ?_⟩
          simp [hgl, he, hmap]
        · left
          simp [hgl, he, hmap]
  · decide

/-- C3: every pair of routes of one parse_routing plan holds the very same
parameters object: the parameter-store reference is captured once, before
the first DATACENTER line, and shared by every route created afterwards,
so the references are equal for all routes of the plan. -/
theorem c3_shared_parameters_reference (lines : List String) (r1 r2 : RouteM)
    (h1 : r1 ∈ parse_routing lines) (h2 : r2 ∈ parse_routing lines) :
    r1.paramRef = r2.paramRef := by
  obtain ⟨s1, hs1, hq1⟩ := mem_finalizeRoutes _ _ h1
  obtain ⟨s2, hs2, hq2⟩ := mem_finalizeRoutes _ _ h2
  rw [hq1, hq2, remapRoute_paramRef, remapRoute_paramRef]
  exact fed_resp_paramRef_eq _ (parseInv_loop lines) s1 hs1 s2 hs2

/-- Witness for C3: a concrete two-route plan in which both routes carry
parameter reference 0. -/
theorem c3_witness :
    routeGFZ ∈ parse_routing overlapEx ∧ routeINGV ∈ parse_routing overlapEx
    ∧ routeGFZ.paramRef = routeINGV.paramRef :=
  ⟨by decide, by decide,
   c3_shared_parameters_reference overlapEx routeGFZ routeINGV (by decide) (by decide)⟩

/-- C4: distribute_args returns the input dict with the five prohibited
keys removed as its discovery-bound output, and exactly the allowed keys
present in the input, with their input values, as its provider-bound
output; a supplied base_url key appears in neither output. -/
theorem c4_distribute_args_partition (argdict : Dict) :
    (distribute_args argdict).1
        = argdict.filter (fun kv => !(fedcatalog_prohibited.contains kv.1))
    ∧ (distribute_args argdict).2
        = service_allowed.filterMap
            (fun k => (argdict.lookup k).map (fun v => (k, v)))
    ∧ ((distribute_args argdict).1).lookup "base_url" = none
    ∧ ((distribute_args argdict).2).lookup "base_url" = none := by
  have h1 : (distribute_args argdict).1
      = argdict.filter (fun kv => !(fedcatalog_prohibited.contains kv.1)) :=
    foldl_delKey_filter fedcatalog_prohibited argdict
  have h2 : (distribute_args argdict).2
      = service_allowed.filterMap
          (fun k => (argdict.lookup k).map (fun v => (k, v))) :=
    service_args_eq argdict
  refine ⟨h1, h2, ?_, ?_⟩
  · rw [h1]
    exact lookup_filter_not_contains _ _ _ (by decide)
  · rw [h2]
    exact lookup_filterMap_not_mem _ _ _ (by decide)

/-- C5: evaluation of get_bulk_string at a newline-free string that is the
path of an existing file.  The code returns the path string itself as the
request body, not the contents of the file: the string branch at line 128
captures every string, so the local-file branch at lines 137-144 is
unreachable.  The claim (and the spec) say the contents of the file are
used; the conjuncts exhibit the divergence at this input. -/
theorem c5_path_bulk_not_read :
    get_bulk_string requestFileFS (BulkObj.ofString "request.txt") none
        = .ok "request.txt"
    ∧ ("request.txt".data.contains '\n') = false
    ∧ requestFileFS.isfile "request.txt" = true
    ∧ "request.txt" ≠ requestFileFS.contents "request.txt" := by
  refine ⟨rfl, by decide, by decide, by decide⟩

/-- C6: once past its early-return guards, refresh replaces the whole
provider collection with a value computed from the directory response
alone and zeroes the failure counter on success; on any failure it leaves
the collection exactly as it was, increments the counter by one, and
returns normally (the embedding is a total function, matching the except
clause that swallows every exception). -/
theorem c6_refresh_attempt_policy (s : ProvidersState)
    (records : List ProviderRecord) (e : Unit) :
    (refresh_attempt s (.ok records)).providers
        = applyRemaps (buildProviders records)
    ∧ (refresh_attempt s (.ok records)).failed_refreshes = 0
    ∧ (refresh_attempt s (.error e)).providers = s.providers
    ∧ (refresh_attempt s (.error e)).failed_refreshes
        = s.failed_refreshes + 1 :=
  ⟨rfl, rfl, rfl, rfl⟩

/-- C7: for a string bulk body, get_bulk_string drops options whose value
is absent, renders the remaining options as key=value lines joined by
newlines and prepends them ahead of the body separated by exactly one
newline, returning the body alone when no options remain; the concrete
example of the claim evaluates as stated. -/
theorem c7_bulk_option_rendering (fs : FileSys) (s : String)
    (argl : List (String × Option String)) :
    get_bulk_string fs (BulkObj.ofString s) (some argl)
        = (let rendered := argl.filterMap
             (fun kv => kv.2.map (fun v => kv.1 ++ "=" ++ v))
           if rendered.isEmpty then Except.ok s
           else Except.ok (String.intercalate "\n" rendered ++ "\n" ++ s))
    ∧ get_bulk_string fs
        (BulkObj.ofString "NET STA -- CHA 2020-01-01 2020-01-02")
        (some [("level", some "channel")])
        = .ok "level=channel\nNET STA -- CHA 2020-01-01 2020-01-02" := by
  have hf : (fun kv : String × Option String =>
      match kv.2 with
      | some v => some (kv.1 ++ "=" ++ convert_to_string v)
      | none => none)
      = (fun kv : String × Option String => kv.2.map (fun v => kv.1 ++ "=" ++ v)) := by
    funext kv
    cases kv.2 <;> rfl
  constructor
  · show (let args := some (argl.filterMap (fun kv =>
        match kv.2 with
        | some v => some (kv.1 ++ "=" ++ convert_to_string v)
        | none => none));
      let finish : String → Except BulkError String := fun tmp =>
        match args with
        | some l => if l.isEmpty then .ok tmp
                    else .ok (String.intercalate "\n" l ++ "\n" ++ tmp)
        | none => .ok tmp
      finish s) = _
    rw [hf]
  · rfl

/-- C8: a bulk argument that is a non-string iterable without a read
method makes get_bulk_string fail with the cannot-handle-vectors error and
return no value, for every file system and every options argument. -/
theorem c8_vector_bulk_rejected (fs : FileSys) (bulk : BulkObj)
    (arguments : Option (List (String × Option String)))
    (hstr : bulk.isString = false) (hiter : bulk.isIterable = true)
    (hread : bulk.hasRead = false) :
    get_bulk_string fs bulk arguments = .error .cannotHandleVectors := by
  simp [get_bulk_string, hstr, hiter, hread]

/-- Witness for C8: a concrete vector-like bulk object is rejected. -/
theorem c8_witness :
    BulkObj.vector.isString = false ∧ BulkObj.vector.isIterable = true
    ∧ BulkObj.vector.hasRead = false
    ∧ get_bulk_string requestFileFS BulkObj.vector none
        = .error .cannotHandleVectors :=
  ⟨rfl, rfl, rfl,
   c8_vector_bulk_rejected requestFileFS BulkObj.vector none rfl rfl rfl⟩

/-- C9: the registry-side alias table REMAPS and the alias dict inside
parse_routing are not equal as mappings: they abbreviate the trailing
catalog provider differently (USPC on the registry side, USPSC on the
plan-parser side, both mapping to USP), while agreeing on IRISDMC, GEOFON
and SED. -/
theorem c9_alias_tables_divergent :
    (REMAPS.lookup "USPSC" = none
     ∧ parse_routing_remap.lookup "USPSC" = some "USP"
     ∧ REMAPS.lookup "USPC" = some "USP"
     ∧ parse_routing_remap.lookup "USPC" = none)
    ∧ REMAPS.lookup "IRISDMC" = some "IRIS"
    ∧ parse_routing_remap.lookup "IRISDMC" = some "IRIS"
    ∧ REMAPS.lookup "GEOFON" = some "GFZ"
    ∧ parse_routing_remap.lookup "GEOFON" = some "GFZ"
    ∧ REMAPS.lookup "SED" = some "ETH"
    ∧ parse_routing_remap.lookup "SED" = some "ETH" := by
  decide

/-- C10: distribute_args never mutates its input dict object: in the
store-level embedding, the object the caller passed holds exactly the same
content after the call (only the freshly allocated copy is modified). -/
theorem c10_distribute_args_no_mutation (st : Store) (argRef : Nat)
    (h : argRef < st.length) :
    storeGet (distribute_args_store st argRef).1 argRef = storeGet st argRef := by
  simp only [distribute_args_store, storeGet, storeSet,
    List.getD_eq_getElem?_getD]
  rw [List.getElem?_set_ne (by omega)]
  rw [List.getElem?_append_left h]

/-- Witness for C10: a concrete one-object store is unchanged at the
argument reference. -/
theorem c10_witness :
    0 < ([[("user", "a"), ("network", "IU")]] : Store).length
    ∧ storeGet (distribute_args_store [[("user", "a"), ("network", "IU")]] 0).1 0
        = storeGet [[("user", "a"), ("network", "IU")]] 0 :=
  ⟨by decide,
   c10_distribute_args_no_mutation [[("user", "a"), ("network", "IU")]] 0 (by decide)⟩

end Fedcatalog
